import Mathlib

/-
  Shallow embedding of the particle-wallpaper renderer
  (ParticleCanvas render loop, App frame orchestration, types.ts settings).

  JavaScript numbers are modelled as real numbers; `Math.sin`, `Math.cos`,
  `Math.sqrt`, `Math.atan2` and `Math.pow` become their exact counterparts on
  `ℝ`, `Math.floor` becomes `Int.floor`, and the JS remainder `%` (truncated
  remainder, used here only with positive divisors) becomes `jsMod` below.
  `Math.random()` results are passed in explicitly as inputs, one slot per
  cell and call site, reflecting that each call draws fresh randomness.
-/

namespace Wallpaper

open scoped Classical

/-- JS truncation toward zero, the rounding used by the `%` operator on
JavaScript numbers. -/
noncomputable def jsTrunc (q : ℝ) : ℤ := if 0 ≤ q then ⌊q⌋ else ⌈q⌉

/-- The JavaScript `%` operator on numbers: remainder with the sign of the
dividend (truncated division). All uses in this code have positive divisor. -/
noncomputable def jsMod (a b : ℝ) : ℝ := a - b * jsTrunc (a / b)

/-- HSL color triple as produced by `rgbToHsl` and the `hsl(...)` fill styles:
hue in degrees, saturation and lightness in percent. -/
structure HSL where
  h : ℝ
  s : ℝ
  l : ℝ

/-- The `rgbToHsl` helper of ParticleCanvas: standard max/min-channel RGB→HSL
conversion; inputs are 0–255 channel values, output hue is `h*360`,
saturation `s*100`, lightness `l*100`. -/
noncomputable def rgbToHsl (r0 g0 b0 : ℝ) : HSL :=
  let r := r0 / 255
  let g := g0 / 255
  let b := b0 / 255
  let mx := max r (max g b)
  let mn := min r (min g b)
  let l := (mx + mn) / 2
  if mx = mn then ⟨0, 0, l * 100⟩
  else
    let d := mx - mn
    let s := if l > 0.5 then d / (2 - mx - mn) else d / (mx + mn)
    let hh := if mx = r then (g - b) / d + (if g < b then 6 else 0)
      else if mx = g then (b - r) / d + 2
      else (r - g) / d + 4
    ⟨hh / 6 * 360, s * 100, l * 100⟩

/-- The `CHAR_SETS.char` lookup table. -/
def CHAR_SETS_char : List Char := "10".toList

/-- The `CHAR_SETS.matrix` lookup table. -/
def CHAR_SETS_matrix : List Char :=
  "ﾊﾐﾋｰｳｼﾅﾓﾆｻﾜﾂｵﾘｱﾎﾃﾏｹﾒｴｶｷﾑﾕﾗｾﾈｽﾀﾇﾍ123457890".toList

/-- The `CHAR_SETS.blocks` lookup table (ordered by density). -/
def CHAR_SETS_blocks : List Char := " ░▒▓█".toList

/-- The `CHAR_SETS.ascii` lookup table (ordered by density). -/
def CHAR_SETS_ascii : List Char := " .:-=+*#%@".toList

/-- The `CHAR_SETS.geometric` lookup table. -/
def CHAR_SETS_geometric : List Char := "▲▼◆●■".toList

/-- The `ColorMode` enum from types.ts. -/
inductive ColorMode where
  | natural
  | grayscale
  | cyber
  | heat
  | matrix
deriving DecidableEq

/-- The `ParticleShape` enum from types.ts. -/
inductive ParticleShape where
  | circle
  | square
  | cross
  | char
  | matrix
  | blocks
  | ascii
  | geometric
deriving DecidableEq

/-- The `AnimationMode` enum from types.ts. -/
inductive AnimationMode where
  | none
  | wave
  | ripple
  | scan
  | jitter
deriving DecidableEq

/-- The `ParticleSettings` record from types.ts. -/
structure Settings where
  pixelSize : ℝ
  threshold : ℝ
  density : ℝ
  colorMode : ColorMode
  hueShift : ℝ
  shape : ParticleShape
  animationMode : AnimationMode
  glow : ℝ
  offsetX : ℝ
  offsetY : ℝ

/-- The shape-to-charset dispatch of the render loop (`currentCharset`):
`char` is the default, each text shape selects its own table. -/
def charsetOf : ParticleShape → List Char
  | .matrix => CHAR_SETS_matrix
  | .blocks => CHAR_SETS_blocks
  | .ascii => CHAR_SETS_ascii
  | .geometric => CHAR_SETS_geometric
  | _ => CHAR_SETS_char

/-- The `isTextShape` flag of the render loop: true for the five glyph shapes. -/
def isTextShape : ParticleShape → Bool
  | .char => true
  | .matrix => true
  | .blocks => true
  | .ascii => true
  | .geometric => true
  | _ => false

/-- One RGBA sample of the analysis buffer (alpha unused by the loop). -/
structure Pixel where
  r : ℕ
  g : ℕ
  b : ℕ

/-- Per-cell `brightness = (r + g + b) / 3` computed from the pixel data. -/
noncomputable def brightnessOf (px : Pixel) : ℝ :=
  ((px.r : ℝ) + (px.g : ℝ) + (px.b : ℝ)) / 3

/-- Clamped `pixelSize = Math.max(2, Math.floor(settings.pixelSize))` of the
render loop. -/
noncomputable def effPixelSize (pixelSize : ℝ) : ℝ := max 2 (↑⌊pixelSize⌋ : ℝ)

/-- The spatial hash
`noise = Math.abs(Math.sin(col * 12.9898 + row * 78.233) * 43758.5453)`
of the density check. -/
noncomputable def densityNoise (col row : ℕ) : ℝ :=
  |Real.sin ((col : ℝ) * 12.9898 + (row : ℝ) * 78.233) * 43758.5453|

/-- The fractional part `randomVal = noise - Math.floor(noise)` of the
density check. -/
noncomputable def densityRandomVal (col row : ℕ) : ℝ :=
  densityNoise col row - (↑⌊densityNoise col row⌋ : ℝ)

/-- The density gate of the render loop: the cell is skipped (`continue`)
exactly when `settings.density < 1.0` and `randomVal > settings.density`. -/
def densitySkip (density : ℝ) (col row : ℕ) : Prop :=
  density < 1 ∧ densityRandomVal col row > density

/-- The density gate as the specification states it: with
`h = |sin(12.9898·col + 78.233·row) · 43758.5453|` and `frac = h − floor(h)`,
skip the cell iff `density < 1.0` and `frac > density`. Stated from the
spec's words, for comparison with `densitySkip` taken from the code. -/
def specDensityGateSkips (density : ℝ) (col row : ℕ) : Prop :=
  density < 1 ∧
    |Real.sin (12.9898 * (col : ℝ) + 78.233 * (row : ℝ)) * 43758.5453| -
      (↑⌊|Real.sin (12.9898 * (col : ℝ) + 78.233 * (row : ℝ)) * 43758.5453|⌋ : ℝ)
      > density

/-- Audio-modulated
`effectiveThreshold = Math.max(0, settings.threshold - (audioLevel * 50))`
of the render loop. -/
noncomputable def effectiveThreshold (threshold audioLevel : ℝ) : ℝ :=
  max 0 (threshold - audioLevel * 50)

/-- JavaScript `Math.atan2 y x`, via the complex argument (both have range `(-π, π]` and
send the origin to `0`). -/
noncomputable def atan2 (y x : ℝ) : ℝ := Complex.arg ⟨x, y⟩

/-- The animation-effects switch of the render loop: displaces the base cell
center `(x0, y0)`. `r1`, `r2` stand for the `Math.random()` draws consumed by
the `jitter` and `scan` branches. In the `ripple` branch the source mutates
`x` first and the subsequent `y` update re-reads the mutated `x` inside its
`atan2`, so the y-displacement's angle is computed from the already-displaced
`x1` (and the still-original `y0`). -/
noncomputable def animate (mode : AnimationMode) (x0 y0 w h elapsed audioLevel beat r1 r2 : ℝ) :
    ℝ × ℝ :=
  let audioTime := elapsed * (1 + beat * 2)
  match mode with
  | .none => (x0, y0)
  | .wave => (x0, y0 + Real.sin (x0 * 0.02 + audioTime * 0.5) * (20 + beat * 20))
  | .ripple =>
    let centerX := w / 2
    let centerY := h / 2
    let dist := Real.sqrt ((x0 - centerX) ^ 2 + (y0 - centerY) ^ 2)
    let offset := Real.sin (dist * 0.02 - audioTime * 1.5) * (15 + beat * 15)
    let x1 := x0 + Real.cos (atan2 (y0 - centerY) (x0 - centerX)) * offset
    (x1, y0 + Real.sin (atan2 (y0 - centerY) (x1 - centerX)) * offset)
  | .jitter =>
    let jitterAmount := 4 + audioLevel * 10
    (x0 + (r1 - 0.5) * jitterAmount, y0 + (r2 - 0.5) * jitterAmount)
  | .scan =>
    let scanPos := jsMod (elapsed * 50) (h + 100) - 50
    if |y0 - scanPos| < 40 + beat * 50 then (x0 + (r1 - 0.5) * 15, y0) else (x0, y0)

/-- The color-processing switch of the render loop: per `colorMode`, the HSL
fill computed from the cell's RGB, `hueShift` and `beat`. -/
noncomputable def colorFor (mode : ColorMode) (r g b hueShift beat : ℝ) : HSL :=
  let hsl := rgbToHsl r g b
  let lightness := hsl.l
  match mode with
  | .grayscale => ⟨0, 0, lightness⟩
  | .cyber =>
    let cyberHue := jsMod (180 + lightness / 2 + hueShift + beat * 30) 360
    ⟨cyberHue, 80, min 100 (lightness + 20 + beat * 20)⟩
  | .heat =>
    let heatHue := jsMod (270 + lightness * 1.5 + hueShift + beat * 60) 360
    ⟨heatHue, 100, lightness + beat * 10⟩
  | .matrix =>
    let matrixHue := jsMod (120 + hueShift) 360
    ⟨matrixHue, 100, min 100 (lightness * 1.5 + beat * 30)⟩
  | .natural =>
    let finalHue := jsMod (hsl.h + hueShift) 360
    ⟨finalHue, hsl.s, min 100 (hsl.l + beat * 10)⟩

/-- The character-selection logic of the text-shape branch: the value of the
`charIndex` variable just before the final `charIndex % currentCharset.length`
lookup. `rand` stands for the `Math.random()` draw of the `geometric` branch. -/
noncomputable def glyphCharIndex (shape : ParticleShape) (col row : ℕ)
    (time brightness beat rand : ℝ) : ℤ :=
  let charset := charsetOf shape
  if shape = .blocks ∨ shape = .ascii then
    let normalizedBrightness := brightness / 255
    let base := ⌊normalizedBrightness * ((charset.length : ℝ) - 1)⌋
    if beat > 0.1 then min ((charset.length : ℤ) - 1) (base + ⌊beat * 2⌋) else base
  else if shape = .matrix then
    let timeSeed := ⌊time * 0.005⌋
    let fastSeed := ⌊time * 0.05⌋
    let seed := if beat > 0.2 then fastSeed else timeSeed
    ((col : ℤ) + (row : ℤ) * 13 + seed) % (charset.length : ℤ)
  else if shape = .geometric then
    let seed := ⌊(col : ℝ) * 3 + (row : ℝ) * 7⌋
    let c := seed % (charset.length : ℤ)
    if beat > 0.2 ∧ rand > 0.5 then (c + 1) % (charset.length : ℤ) else c
  else
    ⌊brightness / 255 * (charset.length : ℝ)⌋

/-- The glyph actually drawn for a text-shape cell:
`const char = currentCharset[charIndex % currentCharset.length]`. -/
noncomputable def charFor (shape : ParticleShape) (col row : ℕ)
    (time brightness beat rand : ℝ) : Char :=
  let charset := charsetOf shape
  charset.getD
    (glyphCharIndex shape col row time brightness beat rand % (charset.length : ℤ)).toNat
    ' '

/-- Font configuration applied before `fillText`: set once per frame for text
shapes as `bold <size>px monospace` with centered alignment and middle
baseline. -/
structure TextStyle where
  size : ℝ
  bold : Bool
  monospace : Bool
  alignCenter : Bool
  baselineMiddle : Bool

/-- The font size for text shapes:
`Math.max(4, pixelSize * 0.9 + (beat * 2))`. -/
noncomputable def glyphFontSize (pixelSize beat : ℝ) : ℝ :=
  max 4 (pixelSize * 0.9 + beat * 2)

/-- One abstract draw operation issued to the output surface: a glyph draw, a
filled rectangle, a stroked plus, or a filled circle, each with its fill (or
stroke) color and the shadow-blur radius in effect. -/
inductive DrawCmd where
  | text (x y : ℝ) (style : TextStyle) (ch : Char) (fill : HSL) (shadowBlur : ℝ)
  | rect (x y width height : ℝ) (fill : HSL) (shadowBlur : ℝ)
  | crossStroke (x y arm lineWidth : ℝ) (strokeColor : HSL) (shadowBlur : ℝ)
  | circle (x y radius : ℝ) (fill : HSL) (shadowBlur : ℝ)

/-- The font size recorded in a glyph draw command, `none` for the geometric
primitives. -/
def DrawCmd.textSize? : DrawCmd → Option ℝ
  | .text _ _ style _ _ _ => some style.size
  | _ => none

/-- The full text style recorded in a glyph draw command, `none` for the
geometric primitives. -/
def DrawCmd.textStyle? : DrawCmd → Option TextStyle
  | .text _ _ style _ _ _ => some style
  | _ => none

/-- The draw command emitted for one surviving cell `(col,row)` with pixel
`px`: base position at the cell center, audio size boost, animation
displacement, color processing, glow, then the shape dispatch
(text / square / cross / circle). `r1 r2 r3` are the `Math.random()` draws
available to the animation and geometric-glyph branches. -/
noncomputable def cellCmd (s : Settings) (col row : ℕ) (px : Pixel)
    (w h elapsed time audioLevel beat r1 r2 r3 : ℝ) : DrawCmd :=
  let pixelSize := effPixelSize s.pixelSize
  let brightness := brightnessOf px
  let x0 := (col : ℝ) * pixelSize + pixelSize / 2
  let y0 := (row : ℝ) * pixelSize + pixelSize / 2
  let audioSizeBoost := brightness / 255 * beat * pixelSize
  let renderSize := pixelSize * (if isTextShape s.shape then 1 else 0.8) + audioSizeBoost
  let pos := animate s.animationMode x0 y0 w h elapsed audioLevel beat r1 r2
  let fill := colorFor s.colorMode (px.r : ℝ) (px.g : ℝ) (px.b : ℝ) s.hueShift beat
  let dynamicGlow := s.glow + audioLevel * 20
  let shadowBlur := if dynamicGlow > 0 then dynamicGlow else 0
  if isTextShape s.shape then
    DrawCmd.text pos.1 pos.2 ⟨glyphFontSize pixelSize beat, true, true, true, true⟩
      (charFor s.shape col row time brightness beat r3) fill shadowBlur
  else if s.shape = .square then
    DrawCmd.rect (pos.1 - renderSize / 2 + 1) (pos.2 - renderSize / 2 + 1)
      (renderSize - 1 * 2) (renderSize - 1 * 2) fill shadowBlur
  else if s.shape = .cross then
    DrawCmd.crossStroke pos.1 pos.2 (renderSize / 3) (max 1 (renderSize / 8)) fill
      shadowBlur
  else
    DrawCmd.circle pos.1 pos.2 (renderSize * 0.4) fill shadowBlur

/-- A draw command together with the grid cell that produced it. -/
structure CellCmd where
  col : ℕ
  row : ℕ
  cmd : DrawCmd

/-- One iteration of the grid loop at flat pixel index `p`: recover
`(col,row)`, apply the density gate, read the pixel, apply the threshold
gate, and emit the cell's draw command if it survives. `rand p k` is the
`k`-th `Math.random()` draw available to cell `p`. -/
noncomputable def renderCell (s : Settings) (img : ℕ → Pixel)
    (w h elapsed time audioLevel beat : ℝ) (rand : ℕ → ℕ → ℝ) (cols : ℕ) (p : ℕ) :
    Option CellCmd :=
  let col := p % cols
  let row := p / cols
  if densitySkip s.density col row then none
  else
    let px := img p
    if brightnessOf px > effectiveThreshold s.threshold audioLevel then
      some ⟨col, row,
        cellCmd s col row px w h elapsed time audioLevel beat (rand p 0) (rand p 1)
          (rand p 2)⟩
    else none

/-- The grid loop of `render`: `beat = Math.pow(audioLevel, 1.5)`, then for
each flat index `p` in `0, …, cols·rows − 1` (the `i += 4` walk over the RGBA
data, row-major) emit the surviving cells' draw commands in order. -/
noncomputable def renderLoop (s : Settings) (img : ℕ → Pixel)
    (w h elapsed time audioLevel : ℝ) (rand : ℕ → ℕ → ℝ) (cols rows : ℕ) :
    List CellCmd :=
  (List.range (cols * rows)).filterMap
    (renderCell s img w h elapsed time audioLevel (audioLevel ^ (1.5 : ℝ)) rand cols)

/-- The observable readiness state of one hidden video element. -/
structure VideoState where
  readyState : ℕ
  hasSrc : Bool

/-- Readiness of the background source:
`bgReady = bgVideo && bgVideo.readyState >= 2 && !!bgVideo.src`. -/
def bgReadyCheck : Option VideoState → Bool
  | some v => decide (2 ≤ v.readyState) && v.hasSrc
  | none => false

/-- Readiness of the webcam source:
`camReady = camVideo && camVideo.srcObject && camVideo.readyState >= 2`. -/
def camReadyCheck : Option VideoState → Bool
  | some v => v.hasSrc && decide (2 ≤ v.readyState)
  | none => false

/-- Grid dimension `cols = Math.ceil(w / pixelSize)` (and likewise for
rows). -/
noncomputable def gridDim (extent pixelSize : ℝ) : ℕ := ⌈extent / pixelSize⌉₊

/-- The externally observable outcome of one `render(time)` invocation:
whether the fused pixel buffer was read (`getImageData`), whether the output
surface was cleared (`clearRect`), the cell draw commands issued, and whether
the next animation frame was requested. -/
structure FrameResult where
  bufferRead : Bool
  clearedOutput : Bool
  cmds : List CellCmd
  scheduledNext : Bool

/-- One `render(time)` invocation: if not playing, only reschedule; if at
least one video source is ready, composite, read the buffer, clear the output
and run the grid loop; otherwise skip the draw pass entirely. In every case
the next animation frame is requested. -/
noncomputable def renderFrame (isPlaying : Bool) (bg cam : Option VideoState)
    (s : Settings) (img : ℕ → Pixel) (w h elapsed time audioLevel : ℝ)
    (rand : ℕ → ℕ → ℝ) : FrameResult :=
  if !isPlaying then ⟨false, false, [], true⟩
  else if bgReadyCheck bg || camReadyCheck cam then
    let pixelSize := effPixelSize s.pixelSize
    ⟨true, true,
      renderLoop s img w h elapsed time audioLevel rand (gridDim w pixelSize)
        (gridDim h pixelSize),
      true⟩
  else ⟨false, false, [], true⟩

/-! ### Helper lemmas -/

/-- A Euclidean remainder by a positive list length is an in-bounds index. -/
lemma emod_toNat_lt (a : ℤ) (n : ℕ) (hn : 0 < n) : (a % (n : ℤ)).toNat < n := by
  have hne : (n : ℤ) ≠ 0 := by exact_mod_cast hn.ne'
  have h1 : 0 ≤ a % (n : ℤ) := Int.emod_nonneg a hne
  have h2 : a % (n : ℤ) < (n : ℤ) := Int.emod_lt_of_pos a (by exact_mod_cast hn)
  omega

/-- Branch lemma: `glyphCharIndex` at shape `blocks`. -/
lemma glyphCharIndex_blocks (col row : ℕ) (time brightness beat rand : ℝ) :
    glyphCharIndex ParticleShape.blocks col row time brightness beat rand =
      if beat > 0.1 then
        min ((CHAR_SETS_blocks.length : ℤ) - 1)
          (⌊brightness / 255 * ((CHAR_SETS_blocks.length : ℝ) - 1)⌋ + ⌊beat * 2⌋)
      else ⌊brightness / 255 * ((CHAR_SETS_blocks.length : ℝ) - 1)⌋ := rfl

/-- Branch lemma: `glyphCharIndex` at shape `ascii`. -/
lemma glyphCharIndex_ascii (col row : ℕ) (time brightness beat rand : ℝ) :
    glyphCharIndex ParticleShape.ascii col row time brightness beat rand =
      if beat > 0.1 then
        min ((CHAR_SETS_ascii.length : ℤ) - 1)
          (⌊brightness / 255 * ((CHAR_SETS_ascii.length : ℝ) - 1)⌋ + ⌊beat * 2⌋)
      else ⌊brightness / 255 * ((CHAR_SETS_ascii.length : ℝ) - 1)⌋ := rfl

/-- Branch lemma: `glyphCharIndex` at shape `matrix`. -/
lemma glyphCharIndex_matrix (col row : ℕ) (time brightness beat rand : ℝ) :
    glyphCharIndex ParticleShape.matrix col row time brightness beat rand =
      ((col : ℤ) + (row : ℤ) * 13 +
          (if beat > 0.2 then ⌊time * 0.05⌋ else ⌊time * 0.005⌋)) %
        (CHAR_SETS_matrix.length : ℤ) := rfl

/-- Branch lemma: `glyphCharIndex` at shape `geometric`. -/
lemma glyphCharIndex_geometric (col row : ℕ) (time brightness beat rand : ℝ) :
    glyphCharIndex ParticleShape.geometric col row time brightness beat rand =
      if beat > 0.2 ∧ rand > 0.5 then
        (⌊(col : ℝ) * 3 + (row : ℝ) * 7⌋ % (CHAR_SETS_geometric.length : ℤ) + 1) %
          (CHAR_SETS_geometric.length : ℤ)
      else ⌊(col : ℝ) * 3 + (row : ℝ) * 7⌋ % (CHAR_SETS_geometric.length : ℤ) := rfl

/-- Branch lemma: `glyphCharIndex` at shape `char`. -/
lemma glyphCharIndex_char (col row : ℕ) (time brightness beat rand : ℝ) :
    glyphCharIndex ParticleShape.char col row time brightness beat rand =
      ⌊brightness / 255 * (CHAR_SETS_char.length : ℝ)⌋ := rfl

/-! ### C2: density gate formula and determinism -/

/-- C2: for every cell `(col,row)` and density, the loop's density gate skips
the cell iff `density < 1.0` and `frac > density` for
`h = |sin(12.9898·col + 78.233·row)·43758.5453|`, `frac = h − floor(h)`; and
the keep/skip decision depends only on `(col, row, density)`, so repeated
evaluations with the same inputs agree. -/
theorem densityGate_matches_spec_and_deterministic :
    ∀ (density : ℝ) (col row : ℕ),
      (densitySkip density col row ↔ specDensityGateSkips density col row) ∧
      ∀ density2 : ℝ, density = density2 →
        (densitySkip density col row ↔ densitySkip density2 col row) := by
  intro density col row
  constructor
  · unfold densitySkip specDensityGateSkips densityRandomVal densityNoise
    rw [show (col : ℝ) * 12.9898 + (row : ℝ) * 78.233
        = 12.9898 * (col : ℝ) + 78.233 * (row : ℝ) by ring]
  · intro density2 hdd
    rw [hdd]

/-- Witness for C2 at `density = 0.5`, `(col,row) = (3,4)`. -/
theorem densityGate_matches_spec_and_deterministic_witness :
    (densitySkip 0.5 3 4 ↔ specDensityGateSkips 0.5 3 4) ∧
      (densitySkip 0.5 3 4 ↔ densitySkip 0.5 3 4) :=
  ⟨(densityGate_matches_spec_and_deterministic 0.5 3 4).1,
    (densityGate_matches_spec_and_deterministic 0.5 3 4).2 0.5 rfl⟩

/-! ### C3: effective threshold -/

/-- C3: for thresholds in `[0,100]` and audio levels in `[0,1]`, the renderer
computes `effectiveThreshold = max(0, threshold − 50·audioLevel)`, the value
is never negative, and a cell that passed the density gate is skipped exactly
when its brightness is `≤ effectiveThreshold`. -/
theorem effectiveThreshold_gate :
    ∀ (threshold audioLevel : ℝ), 0 ≤ threshold → threshold ≤ 100 →
      0 ≤ audioLevel → audioLevel ≤ 1 →
      effectiveThreshold threshold audioLevel = max 0 (threshold - 50 * audioLevel) ∧
      0 ≤ effectiveThreshold threshold audioLevel ∧
      ∀ (s : Settings) (img : ℕ → Pixel) (w h elapsed time beat : ℝ)
        (rand : ℕ → ℕ → ℝ) (cols p : ℕ),
        s.threshold = threshold →
        ¬ densitySkip s.density (p % cols) (p / cols) →
        (renderCell s img w h elapsed time audioLevel beat rand cols p = none ↔
          brightnessOf (img p) ≤ effectiveThreshold threshold audioLevel) := by
  intro t a ht0 ht1 ha0 ha1
  refine ⟨by unfold effectiveThreshold; rw [mul_comm a 50], le_max_left 0 _, ?_⟩
  intro s img w h e tm beat rand cols p hth hskip
  simp only [renderCell]
  rw [if_neg hskip, hth]
  by_cases hb : brightnessOf (img p) > effectiveThreshold t a
  · rw [if_pos hb]
    simp [not_le.2 hb]
  · rw [if_neg hb]
    simp [not_lt.1 hb]

/-- Witness for C3 at `threshold = 20`, `audioLevel = 0`, cell `(0,0)` of a
1-column grid with an all-white image and `density = 1`. -/
theorem effectiveThreshold_gate_witness :
    (effectiveThreshold 20 0 = max 0 (20 - 50 * 0) ∧
      0 ≤ effectiveThreshold 20 0) ∧
      (renderCell
          (⟨8, 20, 1, ColorMode.natural, 0, ParticleShape.matrix, AnimationMode.wave,
            0, 0, 0⟩ : Settings)
          (fun _ => ⟨255, 255, 255⟩) 0 0 0 0 0 0 (fun _ _ => 0) 1 0 = none ↔
        brightnessOf ((fun _ : ℕ => (⟨255, 255, 255⟩ : Pixel)) 0) ≤
          effectiveThreshold 20 0) := by
  have h := effectiveThreshold_gate 20 0 (by norm_num) (by norm_num) le_rfl
    (by norm_num)
  refine ⟨⟨h.1, h.2.1⟩, ?_⟩
  exact h.2.2 (⟨8, 20, 1, ColorMode.natural, 0, ParticleShape.matrix,
      AnimationMode.wave, 0, 0, 0⟩ : Settings)
    (fun _ => ⟨255, 255, 255⟩) 0 0 0 0 0 (fun _ _ => 0) 1 0 rfl
    (by simp [densitySkip])

/-! ### C6: matrix color mode -/

/-- C6: for every input RGB, `hueShift` and `beat`, the `matrix` color mode
yields hue `(120 + hueShift) mod 360`, saturation `100`, and lightness
`min(100, L·1.5 + beat·30)` where `L` is the pixel's HSL lightness — the
pixel's own hue and saturation never enter the result. -/
theorem matrixColorMode_spec :
    ∀ (r g b r2 g2 b2 hueShift beat : ℝ),
      colorFor ColorMode.matrix r g b hueShift beat =
        ⟨jsMod (120 + hueShift) 360, 100,
          min 100 ((rgbToHsl r g b).l * 1.5 + beat * 30)⟩ ∧
      (colorFor ColorMode.matrix r g b hueShift beat).h =
        (colorFor ColorMode.matrix r2 g2 b2 hueShift beat).h ∧
      (colorFor ColorMode.matrix r g b hueShift beat).s =
        (colorFor ColorMode.matrix r2 g2 b2 hueShift beat).s := by
  intro r g b r2 g2 b2 hueShift beat
  exact ⟨rfl, rfl, rfl⟩

/-! ### C10: matrix glyph determinism vs geometric randomness -/

/-- C10: the `matrix` glyph index is a pure function of
`(col, row, time, beat)` — it is `(col + 13·row + seed) mod tableLen` with
`seed = floor(0.05·time)` when `beat > 0.2` and `floor(0.005·time)`
otherwise, and it is independent of the frame's random draws; by contrast the
`geometric` glyph index does consult the random source when `beat > 0.2`. -/
theorem matrixGlyph_deterministic :
    ∀ (col row : ℕ) (time brightness beat r1 r2 : ℝ),
      glyphCharIndex ParticleShape.matrix col row time brightness beat r1 =
        glyphCharIndex ParticleShape.matrix col row time brightness beat r2 ∧
      glyphCharIndex ParticleShape.matrix col row time brightness beat r1 =
        ((col : ℤ) + 13 * (row : ℤ) +
            (if beat > 0.2 then ⌊time * 0.05⌋ else ⌊time * 0.005⌋)) %
          (CHAR_SETS_matrix.length : ℤ) ∧
      glyphCharIndex ParticleShape.geometric 0 0 0 0 1 0.6 ≠
        glyphCharIndex ParticleShape.geometric 0 0 0 0 1 0.4 := by
  intro col row time brightness beat r1 r2
  refine ⟨rfl, ?_, ?_⟩
  · rw [glyphCharIndex_matrix, show (row : ℤ) * 13 = 13 * (row : ℤ) from
      mul_comm _ _]
  · rw [glyphCharIndex_geometric, glyphCharIndex_geometric,
      if_pos (by norm_num : (1 : ℝ) > 0.2 ∧ (0.6 : ℝ) > 0.5),
      if_neg (by norm_num : ¬((1 : ℝ) > 0.2 ∧ (0.4 : ℝ) > 0.5)),
      show CHAR_SETS_geometric.length = 5 from rfl]
    norm_num

/-! ### C4: glyph draw size and style -/

/-- C4 counterexample: with `pixelSize = 10`, a white pixel
(`brightness = 255`) and `beat = 1`, the glyph is drawn with font size
`max(4, 10·0.9 + 1·2) = 11`, not the claimed
`pixelSize·1.0 + audioSizeBoost = 10·1.0 + (255/255)·1·10 = 20`. -/
theorem glyphSize_counterexample :
    (cellCmd
        (⟨10, 0, 1, ColorMode.natural, 0, ParticleShape.char, AnimationMode.none,
          0, 0, 0⟩ : Settings)
        0 0 ⟨255, 255, 255⟩ 0 0 0 0 0 1 0 0 0).textSize? = some 11 ∧
      (11 : ℝ) ≠ 10 * 1.0 + 255 / 255 * 1 * 10 := by
  constructor
  · have h1 : (cellCmd
        (⟨10, 0, 1, ColorMode.natural, 0, ParticleShape.char, AnimationMode.none,
          0, 0, 0⟩ : Settings)
        0 0 ⟨255, 255, 255⟩ 0 0 0 0 0 1 0 0 0).textSize? =
        some (glyphFontSize (effPixelSize 10) 1) := rfl
    rw [h1]
    have h2 : effPixelSize 10 = 10 := by
      unfold effPixelSize
      rw [show ⌊(10 : ℝ)⌋ = 10 by norm_num]
      norm_num
    rw [h2]
    unfold glyphFontSize
    norm_num
  · norm_num

/-- C4 amended: every cell drawn with a glyph shape is drawn as a single
character in a bold monospace font, centered (center alignment, middle
baseline), with font size `max(4, pixelSize·0.9 + 2·beat)` — fixed per frame
and independent of the cell's brightness; the quantity
`audioSizeBoost = (brightness/255)·beat·pixelSize` enters only the
`renderSize` used by the geometric primitives. -/
theorem glyphStyle_spec :
    ∀ (s : Settings) (col row : ℕ) (px : Pixel)
      (w h elapsed time audioLevel beat r1 r2 r3 : ℝ),
      isTextShape s.shape = true →
      (cellCmd s col row px w h elapsed time audioLevel beat r1 r2 r3).textStyle? =
        some ⟨glyphFontSize (effPixelSize s.pixelSize) beat, true, true, true, true⟩ := by
  intro s col row px w h elapsed time audioLevel beat r1 r2 r3 hts
  simp only [cellCmd]
  rw [if_pos hts]
  rfl

/-- Witness for C4's amended statement at shape `matrix`. -/
theorem glyphStyle_spec_witness :
    (cellCmd
        (⟨8, 20, 1, ColorMode.natural, 0, ParticleShape.matrix, AnimationMode.wave,
          0, 0, 0⟩ : Settings)
        0 0 ⟨0, 0, 0⟩ 0 0 0 0 0 0 0 0 0).textStyle? =
      some ⟨glyphFontSize (effPixelSize 8) 0, true, true, true, true⟩ :=
  glyphStyle_spec
    (⟨8, 20, 1, ColorMode.natural, 0, ParticleShape.matrix, AnimationMode.wave,
      0, 0, 0⟩ : Settings)
    0 0 ⟨0, 0, 0⟩ 0 0 0 0 0 0 0 0 0 rfl

/-! ### C5: ripple animation at the surface center -/

/-- The complex number with both parts zero is `0`. -/
lemma complex_mk_zero : (⟨0, 0⟩ : ℂ) = 0 := by
  apply Complex.ext <;> simp

/-- JavaScript's `Math.atan2(0, 0)` is `0`. -/
lemma atan2_zero_zero : atan2 0 0 = 0 := by
  unfold atan2
  rw [complex_mk_zero, Complex.arg_zero]

/-- JavaScript's `Math.atan2(0, t)` is `0` for `t ≥ 0` and `π` for `t < 0`;
either way its sine is `0`. -/
lemma sin_atan2_zero (t : ℝ) : Real.sin (atan2 0 t) = 0 := by
  unfold atan2
  have hmk : (⟨t, 0⟩ : ℂ) = (t : ℂ) := by
    apply Complex.ext <;> simp
  rw [hmk]
  rcases le_or_lt 0 t with ht | ht
  · rw [Complex.arg_ofReal_of_nonneg ht, Real.sin_zero]
  · rw [Complex.arg_ofReal_of_neg ht, Real.sin_pi]

/-- At the exact surface center the ripple distance term is `0`:
`atan2(0,0) = 0` sends the whole offset into `x`, and the y-update's
recomputed angle `atan2(0, x1 − cx)` is `0` or `π`, whose sine is `0`, so the
y coordinate is unchanged. -/
lemma ripple_at_exact_center (w h elapsed audioLevel beat r1 r2 : ℝ) :
    animate AnimationMode.ripple (w / 2) (h / 2) w h elapsed audioLevel beat r1 r2 =
      (w / 2 + Real.sin (-(elapsed * (1 + beat * 2) * 1.5)) * (15 + beat * 15),
        h / 2) := by
  have hsub : w / 2 - w / 2 = 0 := sub_self _
  have hsub2 : h / 2 - h / 2 = 0 := sub_self _
  have hdist : Real.sqrt ((0 : ℝ) ^ 2 + 0 ^ 2) = 0 := by norm_num
  simp only [animate, hsub, hsub2, hdist, atan2_zero_zero, Real.cos_zero, one_mul]
  rw [show (0 : ℝ) * 0.02 - elapsed * (1 + beat * 2) * 1.5
      = -(elapsed * (1 + beat * 2) * 1.5) from by ring,
    add_sub_cancel_left, sin_atan2_zero, zero_mul, add_zero]

/-- C5 counterexample: on a 10×10 surface the cell center `(5,5)` is exactly
the surface center, yet at elapsed time `π/3` (with silence: level and beat
`0`) the ripple animation displaces it — the offset
`sin(0·0.02 − 1.5·audioTime)·15 = sin(−π/2)·15 = −15` is applied along
`atan2(0,0) = 0`, moving the cell to `x = −10`. -/
theorem rippleCenter_counterexample :
    animate AnimationMode.ripple 5 5 10 10 (Real.pi / 3) 0 0 0 0 ≠ (5, 5) := by
  have h5 : (5 : ℝ) = 10 / 2 := by norm_num
  rw [h5, ripple_at_exact_center]
  intro hEq
  have h1 := congrArg Prod.fst hEq
  simp only at h1
  have harg : -(Real.pi / 3 * (1 + 0 * 2) * 1.5) = -(Real.pi / 2) := by ring
  rw [harg, Real.sin_neg, Real.sin_pi_div_two] at h1
  norm_num at h1

/-- C5 amended: under `ripple`, a cell whose center is exactly the surface
center has zero y-displacement for every elapsed time and beat (the y-update
recomputes its angle from the already-displaced `x`, giving `atan2(0, x1−cx)`
— `0` or `π` — whose sine is `0`), and its x-displacement is
`sin(−1.5·audioTime)·(15 + 15·beat)` (the distance term is `0` but the time
term of the sine is not); in particular the displacement is zero at
`elapsed = 0`. -/
theorem rippleCenter_spec :
    ∀ (w h elapsed audioLevel beat r1 r2 : ℝ),
      animate AnimationMode.ripple (w / 2) (h / 2) w h elapsed audioLevel beat r1 r2 =
        (w / 2 + Real.sin (-(elapsed * (1 + beat * 2) * 1.5)) * (15 + beat * 15),
          h / 2) ∧
      (animate AnimationMode.ripple (w / 2) (h / 2) w h elapsed audioLevel beat
          r1 r2).2 = h / 2 ∧
      animate AnimationMode.ripple (w / 2) (h / 2) w h 0 audioLevel beat r1 r2 =
        (w / 2, h / 2) := by
  intro w h elapsed audioLevel beat r1 r2
  refine ⟨ripple_at_exact_center w h elapsed audioLevel beat r1 r2, ?_, ?_⟩
  · rw [ripple_at_exact_center]
  · rw [ripple_at_exact_center]
    norm_num

/-! ### C7: blocks/ascii glyph ramp index -/

/-- C7 counterexample: at brightness `0` with `beat = 1` the blocks index is
`min(4, 0 + floor(2·1)) = 2`, not `0` — the "brightness 0 yields index 0"
part of the claim only holds when the beat bump is inactive. -/
theorem blocksIndex_counterexample :
    glyphCharIndex ParticleShape.blocks 0 0 0 0 1 0 = 2 ∧ (2 : ℤ) ≠ 0 := by
  constructor
  · rw [glyphCharIndex_blocks, if_pos (by norm_num : (1 : ℝ) > 0.1),
      show CHAR_SETS_blocks.length = 5 from rfl]
    norm_num
  · decide

/-- C7 amended: for `blocks` (table length 5) and `ascii` (table length 10),
the glyph index is `floor((brightness/255)·(tableLen−1))`, increased by
`floor(2·beat)` and clamped to `tableLen−1` when `beat > 0.1`; in particular
brightness `0` yields index `0` whenever `beat ≤ 0.1`, and brightness `255`
with `beat = 0` yields index `tableLen−1`. -/
theorem blocksAsciiIndex_spec :
    ∀ (col row : ℕ) (time beat rand brightness : ℝ),
      (glyphCharIndex ParticleShape.blocks col row time brightness beat rand =
        if beat > 0.1 then min 4 (⌊brightness / 255 * 4⌋ + ⌊beat * 2⌋)
        else ⌊brightness / 255 * 4⌋) ∧
      (glyphCharIndex ParticleShape.ascii col row time brightness beat rand =
        if beat > 0.1 then min 9 (⌊brightness / 255 * 9⌋ + ⌊beat * 2⌋)
        else ⌊brightness / 255 * 9⌋) ∧
      (beat ≤ 0.1 →
        glyphCharIndex ParticleShape.blocks col row time 0 beat rand = 0 ∧
        glyphCharIndex ParticleShape.ascii col row time 0 beat rand = 0) ∧
      glyphCharIndex ParticleShape.blocks col row time 255 0 rand = 4 ∧
      glyphCharIndex ParticleShape.ascii col row time 255 0 rand = 9 := by
  intro col row time beat rand brightness
  have hnb : ¬ (0 : ℝ) > 0.1 := by norm_num
  refine ⟨?_, ?_, ?_, ?_, ?_⟩
  · rw [glyphCharIndex_blocks, show CHAR_SETS_blocks.length = 5 from rfl]
    norm_num
  · rw [glyphCharIndex_ascii, show CHAR_SETS_ascii.length = 10 from rfl]
    norm_num
  · intro hbeat
    have hnbeat : ¬ beat > 0.1 := not_lt.2 hbeat
    constructor
    · rw [glyphCharIndex_blocks, if_neg hnbeat]
      norm_num
    · rw [glyphCharIndex_ascii, if_neg hnbeat]
      norm_num
  · rw [glyphCharIndex_blocks, if_neg hnb, show CHAR_SETS_blocks.length = 5 from rfl]
    norm_num
  · rw [glyphCharIndex_ascii, if_neg hnb, show CHAR_SETS_ascii.length = 10 from rfl]
    norm_num

/-- Witness for C7's amended statement: the inner implication discharged at
`beat = 0`, together with the other conjuncts at brightness `128`. -/
theorem blocksAsciiIndex_spec_witness :
    (glyphCharIndex ParticleShape.blocks 0 0 0 128 0 0 =
      if (0 : ℝ) > 0.1 then min 4 (⌊(128 : ℝ) / 255 * 4⌋ + ⌊(0 : ℝ) * 2⌋)
      else ⌊(128 : ℝ) / 255 * 4⌋) ∧
    (glyphCharIndex ParticleShape.ascii 0 0 0 128 0 0 =
      if (0 : ℝ) > 0.1 then min 9 (⌊(128 : ℝ) / 255 * 9⌋ + ⌊(0 : ℝ) * 2⌋)
      else ⌊(128 : ℝ) / 255 * 9⌋) ∧
    (glyphCharIndex ParticleShape.blocks 0 0 0 0 0 0 = 0 ∧
      glyphCharIndex ParticleShape.ascii 0 0 0 0 0 0 = 0) ∧
    glyphCharIndex ParticleShape.blocks 0 0 0 255 0 0 = 4 ∧
    glyphCharIndex ParticleShape.ascii 0 0 0 255 0 0 = 9 := by
  have h := blocksAsciiIndex_spec 0 0 0 0 0 128
  exact ⟨h.1, h.2.1, h.2.2.1 (by norm_num), h.2.2.2⟩

/-! ### C9: glyph table access is in bounds -/

/-- C9: for every glyph shape, the `charIndex` computed before the lookup is
nonnegative (given a byte brightness, a nonnegative frame timestamp, and a
nonnegative beat), and the final `charIndex % tableLen` applied at the lookup
always lands in bounds; in particular for shape `char` at brightness `255`
the pre-wrap index equals `tableLen` itself, and the lookup wraps to entry
`0` (the glyph "1") instead of reading past the table. -/
theorem glyphLookup_inBounds :
    ∀ (shape : ParticleShape) (col row : ℕ) (time brightness beat rand : ℝ),
      isTextShape shape = true → 0 ≤ brightness → brightness ≤ 255 →
      0 ≤ time → 0 ≤ beat →
      0 ≤ glyphCharIndex shape col row time brightness beat rand ∧
      (glyphCharIndex shape col row time brightness beat rand %
          ((charsetOf shape).length : ℤ)).toNat < (charsetOf shape).length ∧
      (shape = ParticleShape.char → brightness = 255 →
        glyphCharIndex shape col row time brightness beat rand =
            ((charsetOf shape).length : ℤ) ∧
          charFor shape col row time brightness beat rand = '1') := by
  intro shape col row time brightness beat rand hts hb0 hb255 ht0 hbeat0
  cases shape with
  | circle => exact absurd hts (by decide)
  | square => exact absurd hts (by decide)
  | cross => exact absurd hts (by decide)
  | char =>
    have hnn : (0 : ℤ) ≤ ⌊brightness / 255 * (CHAR_SETS_char.length : ℝ)⌋ := by
      apply Int.floor_nonneg.2
      apply mul_nonneg (div_nonneg hb0 (by norm_num)) (by positivity)
    refine ⟨by rw [glyphCharIndex_char]; exact hnn,
      emod_toNat_lt _ _ (by decide), ?_⟩
    intro _ hb
    have hidx : glyphCharIndex ParticleShape.char col row time brightness beat rand
        = 2 := by
      rw [glyphCharIndex_char, hb, show CHAR_SETS_char.length = 2 from rfl]
      push_cast
      norm_num
    constructor
    · rw [hidx, show (charsetOf ParticleShape.char).length = 2 from rfl]
      decide
    · simp only [charFor]
      rw [hidx]
      decide
  | matrix =>
    refine ⟨?_, emod_toNat_lt _ _ (by decide), fun hcon => absurd hcon (by decide)⟩
    rw [glyphCharIndex_matrix]
    exact Int.emod_nonneg _ (by decide)
  | blocks =>
    have hbase : (0 : ℤ) ≤ ⌊brightness / 255 * ((CHAR_SETS_blocks.length : ℝ) - 1)⌋ := by
      apply Int.floor_nonneg.2
      apply mul_nonneg (div_nonneg hb0 (by norm_num))
      rw [show CHAR_SETS_blocks.length = 5 from rfl]
      norm_num
    refine ⟨?_, emod_toNat_lt _ _ (by decide), fun hcon => absurd hcon (by decide)⟩
    rw [glyphCharIndex_blocks]
    by_cases hbt : beat > 0.1
    · rw [if_pos hbt]
      refine le_min (by decide) (add_nonneg hbase (Int.floor_nonneg.2 ?_))
      exact mul_nonneg hbeat0 (by norm_num)
    · rw [if_neg hbt]
      exact hbase
  | ascii =>
    have hbase : (0 : ℤ) ≤ ⌊brightness / 255 * ((CHAR_SETS_ascii.length : ℝ) - 1)⌋ := by
      apply Int.floor_nonneg.2
      apply mul_nonneg (div_nonneg hb0 (by norm_num))
      rw [show CHAR_SETS_ascii.length = 10 from rfl]
      norm_num
    refine ⟨?_, emod_toNat_lt _ _ (by decide), fun hcon => absurd hcon (by decide)⟩
    rw [glyphCharIndex_ascii]
    by_cases hbt : beat > 0.1
    · rw [if_pos hbt]
      refine le_min (by decide) (add_nonneg hbase (Int.floor_nonneg.2 ?_))
      exact mul_nonneg hbeat0 (by norm_num)
    · rw [if_neg hbt]
      exact hbase
  | geometric =>
    refine ⟨?_, emod_toNat_lt _ _ (by decide), fun hcon => absurd hcon (by decide)⟩
    rw [glyphCharIndex_geometric]
    by_cases hg : beat > 0.2 ∧ rand > 0.5
    · rw [if_pos hg]
      exact Int.emod_nonneg _ (by decide)
    · rw [if_neg hg]
      exact Int.emod_nonneg _ (by decide)

/-- Witness for C9 at shape `char`, brightness `255`. -/
theorem glyphLookup_inBounds_witness :
    0 ≤ glyphCharIndex ParticleShape.char 0 0 0 255 0 0 ∧
      (glyphCharIndex ParticleShape.char 0 0 0 255 0 0 %
          ((charsetOf ParticleShape.char).length : ℤ)).toNat <
        (charsetOf ParticleShape.char).length ∧
      glyphCharIndex ParticleShape.char 0 0 0 255 0 0 =
          ((charsetOf ParticleShape.char).length : ℤ) ∧
        charFor ParticleShape.char 0 0 0 255 0 0 = '1' :=
  ⟨(glyphLookup_inBounds ParticleShape.char 0 0 0 255 0 0 rfl (by norm_num) le_rfl
      le_rfl le_rfl).1,
    (glyphLookup_inBounds ParticleShape.char 0 0 0 255 0 0 rfl (by norm_num) le_rfl
      le_rfl le_rfl).2.1,
    (glyphLookup_inBounds ParticleShape.char 0 0 0 255 0 0 rfl (by norm_num) le_rfl
      le_rfl le_rfl).2.2 rfl rfl⟩

/-! ### C8: no ready source skips the draw pass -/

/-- C8: when neither the background video nor the webcam is ready, a render
invocation reads no pixel buffer, emits no clear and no draw command on the
output surface, and still schedules the next animation frame. -/
theorem noSource_skipsDrawPass :
    ∀ (isPlaying : Bool) (bg cam : Option VideoState) (s : Settings)
      (img : ℕ → Pixel) (w h elapsed time audioLevel : ℝ) (rand : ℕ → ℕ → ℝ),
      bgReadyCheck bg = false → camReadyCheck cam = false →
      (renderFrame isPlaying bg cam s img w h elapsed time audioLevel
          rand).bufferRead = false ∧
        (renderFrame isPlaying bg cam s img w h elapsed time audioLevel
            rand).clearedOutput = false ∧
        (renderFrame isPlaying bg cam s img w h elapsed time audioLevel
            rand).cmds = [] ∧
        (renderFrame isPlaying bg cam s img w h elapsed time audioLevel
            rand).scheduledNext = true := by
  intro isPlaying bg cam s img w h elapsed time audioLevel rand hbg hcam
  unfold renderFrame
  cases isPlaying
  · simp
  · simp [hbg, hcam]

/-- Witness for C8: a background video with `readyState = 1` and no webcam
element, while playing. -/
theorem noSource_skipsDrawPass_witness :
    bgReadyCheck (some ⟨1, true⟩) = false ∧ camReadyCheck none = false ∧
      ((renderFrame true (some ⟨1, true⟩) none
            (⟨8, 20, 1, ColorMode.natural, 0, ParticleShape.matrix,
              AnimationMode.wave, 0, 0, 0⟩ : Settings)
            (fun _ => ⟨0, 0, 0⟩) 0 0 0 0 0 (fun _ _ => 0)).bufferRead = false ∧
        (renderFrame true (some ⟨1, true⟩) none
            (⟨8, 20, 1, ColorMode.natural, 0, ParticleShape.matrix,
              AnimationMode.wave, 0, 0, 0⟩ : Settings)
            (fun _ => ⟨0, 0, 0⟩) 0 0 0 0 0 (fun _ _ => 0)).clearedOutput = false ∧
        (renderFrame true (some ⟨1, true⟩) none
            (⟨8, 20, 1, ColorMode.natural, 0, ParticleShape.matrix,
              AnimationMode.wave, 0, 0, 0⟩ : Settings)
            (fun _ => ⟨0, 0, 0⟩) 0 0 0 0 0 (fun _ _ => 0)).cmds = [] ∧
        (renderFrame true (some ⟨1, true⟩) none
            (⟨8, 20, 1, ColorMode.natural, 0, ParticleShape.matrix,
              AnimationMode.wave, 0, 0, 0⟩ : Settings)
            (fun _ => ⟨0, 0, 0⟩) 0 0 0 0 0 (fun _ _ => 0)).scheduledNext = true) :=
  ⟨rfl, rfl,
    noSource_skipsDrawPass true (some ⟨1, true⟩) none
      (⟨8, 20, 1, ColorMode.natural, 0, ParticleShape.matrix, AnimationMode.wave,
        0, 0, 0⟩ : Settings)
      (fun _ => ⟨0, 0, 0⟩) 0 0 0 0 0 (fun _ _ => 0) rfl rfl⟩

/-! ### C1: one draw command per surviving cell, row-major order -/

/-- In a duplicate-free list every member is counted exactly once. -/
lemma count_eq_one_of_mem_nodup {α : Type} [BEq α] [LawfulBEq α] {l : List α}
    {a : α} (hnd : l.Nodup) (ha : a ∈ l) : l.count a = 1 := by
  induction l with
  | nil => cases ha
  | cons x xs ih =>
    rcases List.mem_cons.mp ha with hax | hmem
    · subst hax
      have hx : a ∉ xs := (List.nodup_cons.mp hnd).1
      rw [List.count_cons_self, List.count_eq_zero.mpr hx]
    · have h1 : xs.count a = 1 := ih (List.nodup_cons.mp hnd).2 hmem
      have hne : a ≠ x := fun he => (List.nodup_cons.mp hnd).1 (he ▸ hmem)
      rw [List.count_cons_of_ne hne, h1]

/-- With `density = 1` the density gate never fires (`settings.density < 1.0`
is false), so one loop iteration reduces to the threshold check alone. -/
lemma renderCell_of_density_one {s : Settings} (hd : s.density = 1)
    (img : ℕ → Pixel) (w h elapsed time audioLevel beat : ℝ)
    (rand : ℕ → ℕ → ℝ) (cols p : ℕ) :
    renderCell s img w h elapsed time audioLevel beat rand cols p =
      if brightnessOf (img p) > effectiveThreshold s.threshold audioLevel then
        some ⟨p % cols, p / cols,
          cellCmd s (p % cols) (p / cols) (img p) w h elapsed time audioLevel beat
            (rand p 0) (rand p 1) (rand p 2)⟩
      else none := by
  have hns : ¬ densitySkip s.density (p % cols) (p / cols) := by
    rw [hd]
    exact fun hcon => lt_irrefl 1 hcon.1
  simp only [renderCell]
  rw [if_neg hns]

/-- C1: with `density = 1.0` and any grid of at least one column and row, the
loop visits the flat indices `0, …, cols·rows − 1` in row-major order,
emitting exactly one draw command for each cell whose brightness exceeds the
effective threshold and none otherwise: the cells of the emitted commands (in
emission order) are exactly the row-major enumeration filtered by the
brightness test, they contain no duplicate, and each in-range cell `(c,r)`
accounts for exactly one command when bright and zero otherwise. -/
theorem renderLoop_rowMajor_exactlyOnce :
    ∀ (s : Settings) (img : ℕ → Pixel) (w h elapsed time audioLevel : ℝ)
      (rand : ℕ → ℕ → ℝ) (cols rows : ℕ),
      1 ≤ cols → 1 ≤ rows → s.density = 1 →
      ((renderLoop s img w h elapsed time audioLevel rand cols rows).map
          (fun cc => (cc.col, cc.row)) =
        (List.range (cols * rows)).filterMap (fun p =>
          if brightnessOf (img p) > effectiveThreshold s.threshold audioLevel then
            some (p % cols, p / cols)
          else none)) ∧
      ((renderLoop s img w h elapsed time audioLevel rand cols rows).map
          (fun cc => (cc.col, cc.row))).Nodup ∧
      ∀ c r : ℕ, c < cols → r < rows →
        ((renderLoop s img w h elapsed time audioLevel rand cols rows).map
            (fun cc => (cc.col, cc.row))).count (c, r) =
          if brightnessOf (img (r * cols + c)) >
              effectiveThreshold s.threshold audioLevel then 1 else 0 := by
  intro s img w h elapsed time audioLevel rand cols rows hcols hrows hd
  have hsome : ∀ (p : ℕ) (z : ℕ × ℕ),
      (if brightnessOf (img p) > effectiveThreshold s.threshold audioLevel then
        some (p % cols, p / cols) else none) = some z →
      z = (p % cols, p / cols) ∧
        brightnessOf (img p) > effectiveThreshold s.threshold audioLevel := by
    intro p z hpz
    by_cases hb : brightnessOf (img p) > effectiveThreshold s.threshold audioLevel
    · rw [if_pos hb] at hpz
      exact ⟨(Option.some_inj.mp hpz).symm, hb⟩
    · rw [if_neg hb] at hpz
      exact absurd hpz (by simp)
  have hmap : (renderLoop s img w h elapsed time audioLevel rand cols rows).map
      (fun cc => (cc.col, cc.row)) =
      (List.range (cols * rows)).filterMap (fun p =>
        if brightnessOf (img p) > effectiveThreshold s.threshold audioLevel then
          some (p % cols, p / cols) else none) := by
    unfold renderLoop
    rw [List.map_filterMap]
    congr 1
    funext p
    rw [renderCell_of_density_one hd img w h elapsed time audioLevel
      (audioLevel ^ (1.5 : ℝ)) rand cols p]
    by_cases hb : brightnessOf (img p) > effectiveThreshold s.threshold audioLevel
    · rw [if_pos hb, if_pos hb]
      rfl
    · rw [if_neg hb, if_neg hb]
      rfl
  have hinj : ∀ (p q : ℕ) (z : ℕ × ℕ),
      z ∈ (if brightnessOf (img p) > effectiveThreshold s.threshold audioLevel then
        some (p % cols, p / cols) else none) →
      z ∈ (if brightnessOf (img q) > effectiveThreshold s.threshold audioLevel then
        some (q % cols, q / cols) else none) → p = q := by
    intro p q z hp hq
    have h1 := (hsome p z (Option.mem_def.mp hp)).1
    have h2 := (hsome q z (Option.mem_def.mp hq)).1
    have h3 : (p % cols, p / cols) = (q % cols, q / cols) := h1.symm.trans h2
    have hmod : p % cols = q % cols := congrArg Prod.fst h3
    have hdiv : p / cols = q / cols := congrArg Prod.snd h3
    calc p = cols * (p / cols) + p % cols := (Nat.div_add_mod p cols).symm
      _ = cols * (q / cols) + q % cols := by rw [hmod, hdiv]
      _ = q := Nat.div_add_mod q cols
  have hnd : ((List.range (cols * rows)).filterMap (fun p =>
      if brightnessOf (img p) > effectiveThreshold s.threshold audioLevel then
        some (p % cols, p / cols) else none)).Nodup :=
    List.Nodup.filterMap hinj (List.nodup_range _)
  refine ⟨hmap, by rw [hmap]; exact hnd, ?_⟩
  intro c r hc hr
  rw [hmap]
  by_cases hb : brightnessOf (img (r * cols + c)) >
      effectiveThreshold s.threshold audioLevel
  · rw [if_pos hb]
    refine count_eq_one_of_mem_nodup hnd ?_
    rw [List.mem_filterMap]
    refine ⟨r * cols + c, ?_, ?_⟩
    · rw [List.mem_range]
      have h1 : r * cols + c < (r + 1) * cols := by
        rw [Nat.add_mul, Nat.one_mul]
        exact Nat.add_lt_add_left hc _
      calc r * cols + c < (r + 1) * cols := h1
        _ ≤ rows * cols := Nat.mul_le_mul_right cols hr
        _ = cols * rows := Nat.mul_comm _ _
    · have hm : (r * cols + c) % cols = c := by
        rw [Nat.add_comm, Nat.add_mul_mod_self_right c r cols, Nat.mod_eq_of_lt hc]
      have hdv : (r * cols + c) / cols = r := by
        rw [Nat.add_comm, Nat.add_mul_div_right c r (Nat.lt_of_lt_of_le
          Nat.zero_lt_one hcols), Nat.div_eq_of_lt hc, Nat.zero_add]
      rw [hm, hdv, if_pos hb]
  · rw [if_neg hb, List.count_eq_zero]
    intro hmem
    rw [List.mem_filterMap] at hmem
    obtain ⟨p, hpmem, hpz⟩ := hmem
    obtain ⟨hz, hbp⟩ := hsome p (c, r) hpz
    have hmod : c = p % cols := congrArg Prod.fst hz
    have hdiv : r = p / cols := congrArg Prod.snd hz
    have hpe : p = r * cols + c := by
      calc p = cols * (p / cols) + p % cols := (Nat.div_add_mod p cols).symm
        _ = cols * r + c := by rw [← hmod, ← hdiv]
        _ = r * cols + c := by rw [Nat.mul_comm]
    rw [hpe] at hbp
    exact hb hbp

/-- Witness for C1 on a 1×1 grid with an all-white image, default-style
settings with `density = 1`, threshold `20`, silence. -/
theorem renderLoop_rowMajor_exactlyOnce_witness :
    ((renderLoop
          (⟨8, 20, 1, ColorMode.natural, 0, ParticleShape.matrix,
            AnimationMode.wave, 0, 0, 0⟩ : Settings)
          (fun _ => ⟨255, 255, 255⟩) 0 0 0 0 0 (fun _ _ => 0) 1 1).map
        (fun cc => (cc.col, cc.row)) =
      (List.range (1 * 1)).filterMap (fun p =>
        if brightnessOf ((fun _ : ℕ => (⟨255, 255, 255⟩ : Pixel)) p) >
            effectiveThreshold
              (⟨8, 20, 1, ColorMode.natural, 0, ParticleShape.matrix,
                AnimationMode.wave, 0, 0, 0⟩ : Settings).threshold 0 then
          some (p % 1, p / 1)
        else none)) ∧
      ((renderLoop
          (⟨8, 20, 1, ColorMode.natural, 0, ParticleShape.matrix,
            AnimationMode.wave, 0, 0, 0⟩ : Settings)
          (fun _ => ⟨255, 255, 255⟩) 0 0 0 0 0 (fun _ _ => 0) 1 1).map
        (fun cc => (cc.col, cc.row))).Nodup ∧
      ((renderLoop
          (⟨8, 20, 1, ColorMode.natural, 0, ParticleShape.matrix,
            AnimationMode.wave, 0, 0, 0⟩ : Settings)
          (fun _ => ⟨255, 255, 255⟩) 0 0 0 0 0 (fun _ _ => 0) 1 1).map
        (fun cc => (cc.col, cc.row))).count (0, 0) =
        (if brightnessOf ((fun _ : ℕ => (⟨255, 255, 255⟩ : Pixel)) (0 * 1 + 0)) >
            effectiveThreshold
              (⟨8, 20, 1, ColorMode.natural, 0, ParticleShape.matrix,
                AnimationMode.wave, 0, 0, 0⟩ : Settings).threshold 0 then 1
        else 0) :=
  ⟨(renderLoop_rowMajor_exactlyOnce
      (⟨8, 20, 1, ColorMode.natural, 0, ParticleShape.matrix, AnimationMode.wave,
        0, 0, 0⟩ : Settings)
      (fun _ => ⟨255, 255, 255⟩) 0 0 0 0 0 (fun _ _ => 0) 1 1 le_rfl le_rfl rfl).1,
    (renderLoop_rowMajor_exactlyOnce
      (⟨8, 20, 1, ColorMode.natural, 0, ParticleShape.matrix, AnimationMode.wave,
        0, 0, 0⟩ : Settings)
      (fun _ => ⟨255, 255, 255⟩) 0 0 0 0 0 (fun _ _ => 0) 1 1 le_rfl le_rfl rfl).2.1,
    (renderLoop_rowMajor_exactlyOnce
      (⟨8, 20, 1, ColorMode.natural, 0, ParticleShape.matrix, AnimationMode.wave,
        0, 0, 0⟩ : Settings)
      (fun _ => ⟨255, 255, 255⟩) 0 0 0 0 0 (fun _ _ => 0) 1 1 le_rfl le_rfl
      rfl).2.2 0 0 Nat.zero_lt_one Nat.zero_lt_one⟩

end Wallpaper
